import Mathlib

/-!
Verification of the application-lifecycle coordinator of the CF Java plugin
test harness.  The definitions below are shallow embeddings of the Python
functions in `test/framework/core.py`, `test/framework/dsl.py` and
`test/conftest.py`; each definition's doc comment names the function it
embeds.  Machine-level details that the claims do not touch
(subprocess execution, file I/O, wall-clock time, threads) are modelled by
explicit oracle parameters and event traces.
-/

/-! ## Python string primitives -/

/-- Membership of one character list in another, scanning left to right.
Models the Python substring test `needle in hay`. -/
def containsSub (needle : List Char) : List Char → Bool
  | [] => needle.isEmpty
  | c :: rest => needle.isPrefixOf (c :: rest) || containsSub needle rest

/-- Python `needle in hay` for strings. -/
def strContains (hay needle : String) : Bool :=
  containsSub needle.data hay.data

/-- Python `s.startswith(p)`. -/
def pyStartsWith (s p : String) : Bool :=
  p.data.isPrefixOf s.data

/-- Drop leading and trailing whitespace from a character list. -/
def pyStripChars (cs : List Char) : List Char :=
  ((cs.dropWhile Char.isWhitespace).reverse.dropWhile Char.isWhitespace).reverse

/-- Python `s.strip()`. -/
def pyStrip (s : String) : String :=
  String.mk (pyStripChars s.data)

/-- Python `s.lower()` (the embedded code only meets ASCII text). -/
def pyLower (s : String) : String :=
  String.mk (s.data.map Char.toLower)

/-- Accumulating loop for whitespace splitting: `acc` holds the current
token reversed. -/
def splitWsGo : List Char → List Char → List (List Char)
  | [], acc => if acc.isEmpty then [] else [acc.reverse]
  | c :: rest, acc =>
      if c.isWhitespace then
        (if acc.isEmpty then [] else [acc.reverse]) ++ splitWsGo rest []
      else splitWsGo rest (c :: acc)

/-- Python `s.split()` with no separator: split on whitespace runs,
discarding empty pieces. -/
def pySplitWs (s : String) : List String :=
  (splitWsGo s.data []).map String.mk

/-- Fueled loop for separator splitting (one character is consumed per
step, so fuel equal to the input length suffices; the fuel-exhausted
branch is unreachable then). -/
def splitOnGo (sep : List Char) : Nat → List Char → List Char → List (List Char)
  | 0, cs, acc => [acc.reverse ++ cs]
  | fuel + 1, cs, acc =>
      match cs with
      | [] => [acc.reverse]
      | c :: rest =>
          if sep.isPrefixOf (c :: rest) then
            acc.reverse :: splitOnGo sep fuel (rest.drop (sep.length - 1)) []
          else splitOnGo sep fuel rest (c :: acc)

/-- Python `s.split(sep)` for a nonempty separator. -/
def pySplitOn (s sep : String) : List String :=
  (splitOnGo sep.data s.data.length s.data []).map String.mk

/-- Tail of a Python integer-literal digit group: digits with single
underscores allowed strictly between digits. -/
def digitsTail : List Char → Bool
  | [] => true
  | '_' :: c :: rest => c.isDigit && digitsTail (c :: rest)
  | '_' :: [] => false
  | c :: rest => c.isDigit && digitsTail rest

/-- A valid Python digit group: nonempty, starts with a digit, underscores
only between digits. -/
def pyDigitGroup : List Char → Bool
  | [] => false
  | c :: rest => c.isDigit && digitsTail rest

/-- Numeric value of a digit group, skipping underscore separators. -/
def digitsToNat (cs : List Char) : Nat :=
  cs.foldl (fun a c => if c.isDigit then a * 10 + (c.toNat - 48) else a) 0

/-- Python `int(s)`: strip whitespace, optional sign, then a digit group.
Returns `none` where Python raises `ValueError`. -/
def pyInt? (s : String) : Option Int :=
  match pyStripChars s.data with
  | '-' :: rest => if pyDigitGroup rest then some (-(digitsToNat rest : Int)) else none
  | '+' :: rest => if pyDigitGroup rest then some ((digitsToNat rest : Int) : Int) else none
  | rest => if pyDigitGroup rest then some ((digitsToNat rest : Int) : Int) else none

/-- Exponent part of a Python float literal: optional sign then digits. -/
def pyFloatExpOk (ex : String) : Bool :=
  match ex.data with
  | '-' :: rest => pyDigitGroup rest
  | '+' :: rest => pyDigitGroup rest
  | rest => pyDigitGroup rest

/-- Mantissa of a Python float literal: digits, optionally with one point;
at least one digit overall. -/
def pyFloatMantissaOk (m : String) : Bool :=
  match pySplitOn m "." with
  | [a] => pyDigitGroup a.data
  | [a, b] =>
      if a = "" then pyDigitGroup b.data
      else if b = "" then pyDigitGroup a.data
      else pyDigitGroup a.data && pyDigitGroup b.data
  | _ => false

/-- Body of a Python float literal after sign stripping (input lowered):
inf/nan words or mantissa with optional exponent. -/
def pyFloatBodyOk (t : String) : Bool :=
  if t = "inf" || t = "infinity" || t = "nan" then true
  else
    match pySplitOn t "e" with
    | [m] => pyFloatMantissaOk m
    | [m, ex] => pyFloatMantissaOk m && pyFloatExpOk ex
    | _ => false

/-- Whether Python `float(s)` succeeds (the numeric value itself is never
needed by the embedded code, only parse success). -/
def pyFloatValid (s : String) : Bool :=
  let t := pyLower (pyStrip s)
  match t.data with
  | '-' :: rest => pyFloatBodyOk (String.mk rest)
  | '+' :: rest => pyFloatBodyOk (String.mk rest)
  | _ => pyFloatBodyOk t

/-! ## CommandResult (core.py lines 319-341) -/

/-- Result of one external command, from class CommandResult. -/
structure CommandResult where
  returncode : Int
  stdout : String
  stderr : String
  command : String
deriving DecidableEq, Repr

/-- CommandResult.success: returncode == 0. -/
def CommandResult.success (r : CommandResult) : Bool := r.returncode == 0

/-- CommandResult.failed: returncode != 0. -/
def CommandResult.failed (r : CommandResult) : Bool := r.returncode != 0

/-- CommandResult.output: stdout + stderr combined. -/
def CommandResult.output (r : CommandResult) : String := r.stdout ++ r.stderr

/-! ## CFJavaTestRunner.run_command (core.py lines 437-453) -/

/-- Outcome of run_command on a list: a returned result, or an uncaught
Python exception (IndexError / ValueError). -/
inductive RunResult where
  | returned (r : CommandResult)
  | raised (msg : String)
deriving DecidableEq, Repr

/-- Loop body of run_command for a command list.  `exec` is the oracle for
`_execute_single_command`; `results` is the accumulated results list.  The
second component of the result is the list of commands actually executed
(in order).  An element starting with "sleep " is handled by
`time.sleep(float(cmd.split()[1]))`: a missing duration token raises
IndexError and one that float() rejects raises ValueError; when the token
does parse, `time.sleep` itself still raises on a value it rejects —
ValueError on a negative or NaN duration, OverflowError on an infinite
one.  Which parsed floats `time.sleep` accepts is floating-point
behavior, so it is supplied by the oracle `sleepRaise`: `none` means the
pause happens (it has no observable effect here), `some msg` the raise
with that message.  On the first failed result the loop returns it; after
the loop the code returns `results[-1]`, which raises IndexError when no
command was executed. -/
def run_command_go (exec : String → CommandResult)
    (sleepRaise : String → Option String) :
    List String → List CommandResult → RunResult × List String
  | [], results =>
      match results.getLast? with
      | some r => (RunResult.returned r, [])
      | none => (RunResult.raised "IndexError", [])
  | cmd :: rest, results =>
      if pyStartsWith cmd "sleep " then
        match (pySplitWs cmd)[1]? with
        | none => (RunResult.raised "IndexError", [])
        | some dur =>
            if pyFloatValid dur then
              match sleepRaise dur with
              | none => run_command_go exec sleepRaise rest results
              | some msg => (RunResult.raised msg, [])
            else (RunResult.raised "ValueError", [])
      else
        let r := exec cmd
        if r.failed then (RunResult.returned r, [cmd])
        else
          let next := run_command_go exec sleepRaise rest (results ++ [r])
          (next.1, cmd :: next.2)

/-- CFJavaTestRunner.run_command restricted to the list case (the string
case delegates directly to the single-command executor). -/
def run_command (exec : String → CommandResult)
    (sleepRaise : String → Option String) (cmds : List String) :
    RunResult × List String :=
  run_command_go exec sleepRaise cmds []

/-- A "sleep " element that actually pauses: its duration token exists,
parses as a float, and the parsed value is one `time.sleep`
accepts (nonnegative and finite, per the `sleepRaise` oracle). -/
def wellFormedSleep (sleepRaise : String → Option String) (x : String) : Bool :=
  match (pySplitWs x)[1]? with
  | some d => pyFloatValid d && (sleepRaise d).isNone
  | none => false

/-- The commands of a list that run_command actually executes when no
failure and no malformed sleep interrupts it: everything except the sleep
pauses. -/
def executedOf (cmds : List String) : List String :=
  cmds.filter (fun x => !pyStartsWith x "sleep ")

/-! ## dsl.py: is_ssh_auth_error (lines 17-37) and
FluentAssertion.should_succeed (lines 52-126) -/

/-- The fixed authentication-failure signatures of is_ssh_auth_error. -/
def ssh_auth_errors : List String :=
  [ "Error getting one time auth code: Error getting SSH code: Error requesting one time code from server:",
    "Error getting one time auth code",
    "Error getting SSH code",
    "Authentication failed",
    "SSH authentication failed",
    "Error opening SSH connection: ssh: handshake failed" ]

/-- is_ssh_auth_error: first matching signature, scanning the fixed list in
order with the Python substring test. -/
def is_ssh_auth_error (output : String) : Bool × Option String :=
  match ssh_auth_errors.find? (fun p => strContains output p) with
  | some p => (true, some p)
  | none => (false, none)

/-- One observable step of the should_succeed recovery path, in the order
the source performs them. -/
inductive RecoveryStep where
  | reset_login_state
  | sleep_pause
  | relogin
  | restart_app (app : String)
  | rerun (cmd : String)
deriving DecidableEq, Repr

/-- Outcome of should_succeed: the assertion passes, the test is skipped
(pytest.skip with the detected signature), or an AssertionError is
raised. -/
inductive AssertOutcome where
  | passed
  | skipped (detected : Option String)
  | assertion_error
deriving DecidableEq, Repr

/-- Oracles for the effects inside the recovery path: whether the re-login
succeeds, whether the single-app restart succeeds, and the result of the
re-issued command.  An exception inside a step is modelled as that step
failing (the source catches it and falls through to pytest.skip). -/
structure RecoveryEnv where
  login_success : Bool
  restart_success : Bool
  retry_result : CommandResult
deriving DecidableEq, Repr

/-- FluentAssertion.should_succeed.  `app_name` is `some app` when the
context has a non-empty app_name attribute (Python truthiness), else
`none`.  Returns the outcome together with the trace of recovery steps
performed. -/
def should_succeed (result : CommandResult) (app_name : Option String)
    (env : RecoveryEnv) : AssertOutcome × List RecoveryStep :=
  if result.failed then
    let detection := is_ssh_auth_error (result.stderr ++ " " ++ result.stdout)
    if detection.1 then
      let detected := detection.2
      let steps := [RecoveryStep.reset_login_state, RecoveryStep.sleep_pause,
                    RecoveryStep.relogin]
      if env.login_success then
        match app_name with
        | some app =>
            let steps := steps ++ [RecoveryStep.restart_app app]
            if env.restart_success then
              let steps := steps ++ [RecoveryStep.rerun result.command]
              if env.retry_result.failed then (AssertOutcome.skipped detected, steps)
              else (AssertOutcome.passed, steps)
            else (AssertOutcome.skipped detected, steps)
        | none => (AssertOutcome.skipped detected, steps)
      else (AssertOutcome.skipped detected, steps)
    else (AssertOutcome.assertion_error, [])
  else (AssertOutcome.passed, [])

/-- Whether a recovery step is a re-issue of the original command. -/
def RecoveryStep.isRerun : RecoveryStep → Bool
  | RecoveryStep.rerun _ => true
  | _ => false

/-! ## CFManager.check_all_apps_status (core.py lines 1270-1336) -/

/-- The running-instance count extracted from the processes column
(e.g. "web:1/1"): the piece between the first two colons is split on "/",
and its first piece parsed with Python int().  `none` where the source
ends in its "unknown" branches. -/
def parse_running_instances (processes : String) : Option Int :=
  let process_parts := pySplitOn processes ":"
  if process_parts.length > 1 then
    let instance_info := pySplitOn (process_parts[1]!) "/"
    if instance_info.length ≥ 2 then pyInt? (instance_info[0]!)
    else none
  else none

/-- Status computed from the requested-state and processes columns of one
cf apps line (core.py lines 1296-1323).  The Python test for a colon in
the processes field is realized as the split producing more than one
piece, which is equivalent. -/
def check_app_line_status (requested_state processes : String) : String :=
  if requested_state = "stopped" then "stopped"
  else if requested_state = "started" then
    let process_parts := pySplitOn processes ":"
    if process_parts.length > 1 then
      let instance_info := pySplitOn (process_parts[1]!) "/"
      if instance_info.length ≥ 2 then
        match pyInt? (instance_info[0]!) with
        | some n => if 0 < n then "running" else "stopped"
        | none => "unknown"
      else "unknown"
    else "running"
  else "unknown"

/-- Handling of one line of cf apps output in check_all_apps_status
(core.py lines 1284-1323): strip, skip empty/header lines, whitespace
split, require at least three columns, require the first column to be a
configured app, and map the remaining columns to a status. -/
def check_all_apps_status_line (config_apps : List String) (raw : String) :
    Option (String × String) :=
  let line := pyStrip raw
  if line = "" || pyStartsWith line "name" || pyStartsWith line "Getting" then none
  else
    let parts := pySplitWs line
    if parts.length ≥ 3 then
      let app_name := parts[0]!
      if app_name ∈ config_apps then
        some (app_name, check_app_line_status (pyLower (parts[1]!)) (parts[2]!))
      else none
    else none

/-! ## LifecycleCoordinator: restart_apps_if_needed (core.py lines
1515-1568), restart_apps_if_needed_parallel (lines 1570-1672),
restart_apps (lines 1168-1178), restart_apps_parallel (lines 1180-1214),
and the restart-mode dispatch of conftest.py lines 165-196 -/

/-- A lifecycle action issued for an app: cf start or cf restart. -/
inductive LifecycleAction where
  | start
  | restart
deriving DecidableEq, Repr

/-- The probed status of an app: `app_statuses.get(app_name, "unknown")`,
with the status map as an association list. -/
def statusLookup (statuses : List (String × String)) (app : String) : String :=
  (statuses.lookup app).getD "unknown"

/-- The classification loop of restart_apps_if_needed (core.py lines
1526-1537): each configured app goes to the restart list when running, to
the start list when stopped or crashed, and to the restart list otherwise
(unknown). -/
def restart_apps_if_needed_classify (statuses : List (String × String)) :
    List String → List String × List String
  | [] => ([], [])
  | app :: rest =>
      let status := statusLookup statuses app
      let acc := restart_apps_if_needed_classify statuses rest
      if status == "running" then (app :: acc.1, acc.2)
      else if status == "stopped" || status == "crashed" then (acc.1, app :: acc.2)
      else (app :: acc.1, acc.2)

/-- The classification loop of restart_apps_if_needed_parallel (core.py
lines 1581-1592), which repeats the loop of lines 1526-1537 verbatim. -/
def restart_apps_if_needed_parallel_classify
    (statuses : List (String × String)) (apps : List String) :
    List String × List String :=
  restart_apps_if_needed_classify statuses apps

/-- The actions restart_apps_if_needed executes, in order: cf restart for
every app of the restart list, then cf start for every app of the start
list. -/
def restart_apps_if_needed_actions (statuses : List (String × String))
    (apps : List String) : List (String × LifecycleAction) :=
  let c := restart_apps_if_needed_classify statuses apps
  c.1.map (fun a => (a, LifecycleAction.restart)) ++
    c.2.map (fun a => (a, LifecycleAction.start))

/-- The actions restart_apps_if_needed_parallel dispatches (one worker per
app; restart workers are spawned first, then start workers). -/
def restart_apps_if_needed_parallel_actions (statuses : List (String × String))
    (apps : List String) : List (String × LifecycleAction) :=
  let c := restart_apps_if_needed_parallel_classify statuses apps
  c.1.map (fun a => (a, LifecycleAction.restart)) ++
    c.2.map (fun a => (a, LifecycleAction.start))

/-- restart_apps / restart_apps_parallel: cf restart for every configured
app, unconditionally. -/
def restart_apps_actions (apps : List String) : List (String × LifecycleAction) :=
  apps.map (fun a => (a, LifecycleAction.restart))

/-- The restart-mode dispatch of conftest.py `_restart_all_apps_at_start`
(lines 171-187): smart and smart_parallel use the status-based
classification, parallel and always restart every app, any other mode
except never falls back to the smart classification, and never returns
without computing any action. -/
def restart_all_apps_at_start (mode : String) (statuses : List (String × String))
    (apps : List String) : List (String × LifecycleAction) :=
  if mode == "smart" then restart_apps_if_needed_actions statuses apps
  else if mode == "smart_parallel" then restart_apps_if_needed_parallel_actions statuses apps
  else if mode == "parallel" then restart_apps_actions apps
  else if mode == "always" then restart_apps_actions apps
  else if mode != "never" then restart_apps_if_needed_actions statuses apps
  else []

/-- The action the spec's table in its lifecycle-policy section assigns to
a probed status under the smart policies (written from the spec's words,
for comparison with the code-derived classification). -/
def specSmartAction (st : String) : LifecycleAction :=
  if st = "running" then LifecycleAction.restart
  else if st = "stopped" ∨ st = "crashed" then LifecycleAction.start
  else LifecycleAction.restart

/-! ## CFManager.login (core.py lines 1016-1076) and
is_logged_in_correctly (lines 993-1014) -/

/-- The five-field config signature login compares (core.py lines
1021-1027). -/
structure LoginConfig where
  username : String
  password : String
  api_endpoint : String
  org : String
  space : String
deriving DecidableEq, Repr

/-- The persisted login state.  `login_config` is `some c` when the stored
dict equals a full config signature, `none` for the default empty dict.
`login_timestamp` is `none` when the stored value is not numeric (the
isinstance check of line 1037 then fails and the cached shortcut is not
taken). -/
structure LoginState where
  logged_in : Bool
  login_config : Option LoginConfig
  login_timestamp : Option Int
deriving DecidableEq, Repr

/-- Oracles for the two external checks login can perform: whether the
cf target probe of is_logged_in_correctly reports the desired
endpoint/user/org/space, and whether the real cf login command
succeeds. -/
structure LoginEnv where
  target_matches : Bool
  login_cmd_succeeds : Bool
deriving DecidableEq, Repr

/-- What one login() call did: its return value, the persisted state
afterwards, whether the cf target probe ran, and whether the real cf login
authentication command ran. -/
structure LoginOutcome where
  ok : Bool
  state : LoginState
  probe_issued : Bool
  auth_issued : Bool
deriving DecidableEq, Repr

/-- The cached shortcut condition of core.py lines 1034-1041: persisted
state logged in, stored config equal to the current one, and a numeric
timestamp younger than 1800 seconds. -/
def login_cached (cfg : LoginConfig) (state : LoginState) (now : Int) : Bool :=
  state.logged_in && state.login_config == some cfg &&
    (match state.login_timestamp with
     | some ts => decide (now - ts < 1800)
     | none => false)

/-- CFManager.login.  When the cached shortcut applies it returns success
touching nothing; otherwise it probes the live target
(is_logged_in_correctly) and, when that matches, refreshes the state
without authenticating; only then does it issue the real cf login command,
persisting fresh state on success and leaving the state as loaded on
failure. -/
def login (cfg : LoginConfig) (state : LoginState) (now : Int) (env : LoginEnv) :
    LoginOutcome :=
  if login_cached cfg state now then
    { ok := true, state := state, probe_issued := false, auth_issued := false }
  else if env.target_matches then
    { ok := true, state := ⟨true, some cfg, some now⟩,
      probe_issued := true, auth_issued := false }
  else if env.login_cmd_succeeds then
    { ok := true, state := ⟨true, some cfg, some now⟩,
      probe_issued := true, auth_issued := true }
  else
    { ok := false, state := state, probe_issued := true, auth_issued := true }

/-! ## Deferred-restart queue: CFManager.add_deferred_restart_app (core.py
lines 1703-1722), get_deferred_restart_apps (lines 1724-1729), and
process_deferred_restarts (lines 1757-1794) -/

/-- One entry of the persisted deferred-restart queue. -/
structure RestartEntry where
  app : String
  test_class : String
  reason : String
  timestamp : Int
deriving DecidableEq, Repr

/-- CFManager.add_deferred_restart_app: append a new entry unless an entry
with the same app and test_class already exists. -/
def add_deferred_restart_app (entries : List RestartEntry)
    (app_name test_class reason : String) (now : Int) : List RestartEntry :=
  match entries.find? (fun e => e.app == app_name && e.test_class == test_class) with
  | some _ => entries
  | none => entries ++ [⟨app_name, test_class, reason, now⟩]

/-- Number of queue entries for one (app, test_class) pair. -/
def entryCount (entries : List RestartEntry) (app tc : String) : Nat :=
  (entries.filter (fun e => e.app == app && e.test_class == tc)).length

/-- The apps named by the queue entries; process_deferred_restarts
collects this list (core.py line 1765) but uses it only in a log
message. -/
def collected_deferred_apps (entries : List RestartEntry) : List String :=
  entries.map (fun e => e.app)

/-- An observable event of process_deferred_restarts: a write of the
persisted queue, or the execution of one lifecycle operation by the
dispatched batch restart. -/
inductive DeferredEvent where
  | save_queue (entries : List RestartEntry)
  | exec_op (app : String) (action : LifecycleAction)
deriving DecidableEq, Repr

/-- The batch the mode dispatch of process_deferred_restarts (core.py
lines 1776-1791) executes: smart_parallel / smart use the status-based
classification over all configured apps, parallel / always restart every
configured app, and every other mode falls back to smart_parallel. -/
def deferred_dispatch_actions (mode : String) (statuses : List (String × String))
    (apps : List String) : List (String × LifecycleAction) :=
  if mode == "smart_parallel" then restart_apps_if_needed_parallel_actions statuses apps
  else if mode == "smart" then restart_apps_if_needed_actions statuses apps
  else if mode == "parallel" then restart_apps_actions apps
  else if mode == "always" then restart_apps_actions apps
  else restart_apps_if_needed_parallel_actions statuses apps

/-- CFManager.process_deferred_restarts as an event trace.  With an empty
queue nothing happens; otherwise the persisted queue is overwritten with
the empty list and only then is the batch restart dispatched.  No failure
of the batch writes the queue again (the source never re-queues). -/
def process_deferred_restarts (mode : String) (entries : List RestartEntry)
    (statuses : List (String × String)) (apps : List String) : List DeferredEvent :=
  if entries.isEmpty then []
  else
    DeferredEvent.save_queue [] ::
      (deferred_dispatch_actions mode statuses apps).map
        (fun p => DeferredEvent.exec_op p.1 p.2)

/-- Whether an event writes the persisted queue. -/
def DeferredEvent.isSave : DeferredEvent → Bool
  | DeferredEvent.save_queue _ => true
  | _ => false

/-- The persisted queue after a trace of events, starting from an initial
queue: the payload of the last write, if any. -/
def final_persisted_queue (initial : List RestartEntry)
    (events : List DeferredEvent) : List RestartEntry :=
  events.foldl (fun acc ev =>
    match ev with
    | DeferredEvent.save_queue q => q
    | DeferredEvent.exec_op _ _ => acc) initial

/-! ## Theorems -/

/-- The classification loop equals a pair of filters by the action the
spec's table assigns to each app's probed status. -/
lemma classify_eq_filter (statuses : List (String × String)) (apps : List String) :
    restart_apps_if_needed_classify statuses apps =
      (apps.filter (fun a => decide (specSmartAction (statusLookup statuses a) = LifecycleAction.restart)),
       apps.filter (fun a => decide (specSmartAction (statusLookup statuses a) = LifecycleAction.start))) := by
  induction apps with
  | nil => simp [restart_apps_if_needed_classify]
  | cons a rest ih =>
    by_cases h1 : statusLookup statuses a = "running"
    · simp [restart_apps_if_needed_classify, ih, h1, specSmartAction, beq_iff_eq]
    · by_cases h2 : statusLookup statuses a = "stopped"
      · simp [restart_apps_if_needed_classify, ih, h1, h2, specSmartAction, beq_iff_eq]
      · by_cases h3 : statusLookup statuses a = "crashed"
        · simp [restart_apps_if_needed_classify, ih, h1, h2, h3, specSmartAction, beq_iff_eq]
        · simp [restart_apps_if_needed_classify, ih, h1, h2, h3, specSmartAction, beq_iff_eq]

/-- Membership in the action list of the smart restart matches the spec's
per-status table. -/
lemma mem_restart_actions (statuses : List (String × String)) (apps : List String)
    (app : String) (act : LifecycleAction) :
    (app, act) ∈ restart_apps_if_needed_actions statuses apps ↔
      app ∈ apps ∧ act = specSmartAction (statusLookup statuses app) := by
  unfold restart_apps_if_needed_actions
  rw [classify_eq_filter]
  cases act <;> cases hspec : specSmartAction (statusLookup statuses app) <;>
    simp [List.mem_append, List.mem_map, List.mem_filter, hspec]

/-- C1: for every configured app, both smart restart operations compute
exactly the action of the spec's table from the probed status (running
restarts, stopped and crashed start, anything else — in particular
unknown — restarts); the never mode computes no action for any app, and
the always mode computes a restart for every app. -/
theorem restart_decision_policy (statuses : List (String × String)) (apps : List String)
    (app : String) (h : app ∈ apps) :
    (specSmartAction "running" = LifecycleAction.restart
      ∧ specSmartAction "stopped" = LifecycleAction.start
      ∧ specSmartAction "crashed" = LifecycleAction.start
      ∧ specSmartAction "unknown" = LifecycleAction.restart)
    ∧ ((app, specSmartAction (statusLookup statuses app)) ∈
          restart_apps_if_needed_actions statuses apps
        ∧ ∀ act, (app, act) ∈ restart_apps_if_needed_actions statuses apps →
            act = specSmartAction (statusLookup statuses app))
    ∧ ((app, specSmartAction (statusLookup statuses app)) ∈
          restart_apps_if_needed_parallel_actions statuses apps
        ∧ ∀ act, (app, act) ∈ restart_apps_if_needed_parallel_actions statuses apps →
            act = specSmartAction (statusLookup statuses app))
    ∧ restart_all_apps_at_start "never" statuses apps = []
    ∧ ((app, LifecycleAction.restart) ∈ restart_all_apps_at_start "always" statuses apps
        ∧ ∀ act, (app, act) ∈ restart_all_apps_at_start "always" statuses apps →
            act = LifecycleAction.restart) := by
  refine ⟨⟨by decide, by decide, by decide, by decide⟩, ⟨?_, ?_⟩, ⟨?_, ?_⟩, ?_, ⟨?_, ?_⟩⟩
  · exact (mem_restart_actions statuses apps app _).mpr ⟨h, rfl⟩
  · intro act hact
    exact ((mem_restart_actions statuses apps app act).mp hact).2
  · exact (mem_restart_actions statuses apps app _).mpr ⟨h, rfl⟩
  · intro act hact
    exact ((mem_restart_actions statuses apps app act).mp hact).2
  · simp [restart_all_apps_at_start]
  · simp [restart_all_apps_at_start, restart_apps_actions]
    exact h
  · intro act hact
    simp [restart_all_apps_at_start, restart_apps_actions, List.mem_map] at hact
    obtain ⟨a, ha, h1, h2⟩ := hact
    exact h2.symm

/-- C1 witness: spec scenario A — x running restarts, y stopped starts —
and never mode computes nothing, at concrete inputs. -/
theorem restart_decision_policy_witness :
    ("y", LifecycleAction.start) ∈ restart_apps_if_needed_actions
        [("x", "running"), ("y", "stopped"), ("z", "crashed")] ["x", "y", "z"]
    ∧ restart_all_apps_at_start "never" [("x", "running")] ["x"] = [] := by
  constructor
  · have h := (restart_decision_policy [("x", "running"), ("y", "stopped"), ("z", "crashed")]
      ["x", "y", "z"] "y" (by decide)).2.1.1
    have e : specSmartAction (statusLookup
        [("x", "running"), ("y", "stopped"), ("z", "crashed")] "y") = LifecycleAction.start := by
      decide
    rw [e] at h
    exact h
  · exact (restart_decision_policy [("x", "running")] ["x"] "x" (by decide)).2.2.2.1

/-- C2 counterexample: the line "myapp started web" has a process field
without a colon, whose running-instance count cannot be parsed, yet
check_all_apps_status maps the app to "running", not "unknown" as the
claim's parse-failure clause states. -/
theorem check_all_apps_status_parse_counterexample :
    parse_running_instances "web" = none
    ∧ check_all_apps_status_line ["myapp"] "myapp started web" = some ("myapp", "running")
    ∧ check_app_line_status "started" "web" ≠ "unknown" := by decide

/-- C2 (amended): requested state stopped maps to stopped; started with a
parsed running-instance count maps to running when positive and stopped
when zero; started with a process field that contains a colon but whose
count cannot be parsed maps to unknown; and started with a process field
lacking a colon is assumed running. -/
theorem check_all_apps_status_mapping (processes : String) (n : Int) :
    check_app_line_status "stopped" processes = "stopped"
    ∧ (parse_running_instances processes = some n → 0 < n →
        check_app_line_status "started" processes = "running")
    ∧ (parse_running_instances processes = some 0 →
        check_app_line_status "started" processes = "stopped")
    ∧ ((pySplitOn processes ":").length > 1 → parse_running_instances processes = none →
        check_app_line_status "started" processes = "unknown")
    ∧ (¬ (pySplitOn processes ":").length > 1 →
        check_app_line_status "started" processes = "running") := by
  refine ⟨by simp [check_app_line_status], ?_, ?_, ?_, ?_⟩
  · intro hp hn
    unfold parse_running_instances at hp
    unfold check_app_line_status
    by_cases h1 : (pySplitOn processes ":").length > 1
    · rw [if_pos h1] at hp
      by_cases h2 : (pySplitOn ((pySplitOn processes ":")[1]!) "/").length ≥ 2
      · rw [if_pos h2] at hp
        simp [h1, h2, hp, hn]
      · rw [if_neg h2] at hp
        exact absurd hp (by simp)
    · rw [if_neg h1] at hp
      exact absurd hp (by simp)
  · intro hp
    unfold parse_running_instances at hp
    unfold check_app_line_status
    by_cases h1 : (pySplitOn processes ":").length > 1
    · rw [if_pos h1] at hp
      by_cases h2 : (pySplitOn ((pySplitOn processes ":")[1]!) "/").length ≥ 2
      · rw [if_pos h2] at hp
        simp [h1, h2, hp]
      · rw [if_neg h2] at hp
        exact absurd hp (by simp)
    · rw [if_neg h1] at hp
      exact absurd hp (by simp)
  · intro h1 hp
    unfold parse_running_instances at hp
    rw [if_pos h1] at hp
    unfold check_app_line_status
    by_cases h2 : (pySplitOn ((pySplitOn processes ":")[1]!) "/").length ≥ 2
    · rw [if_pos h2] at hp
      simp [h1, h2, hp]
    · rw [if_neg h2] at hp
      simp [h1, h2]
  · intro h1
    simp [check_app_line_status, h1]

/-- C2 witness: the three parsed-count cases at concrete process
fields. -/
theorem check_all_apps_status_mapping_witness :
    check_app_line_status "started" "web:1/1" = "running"
    ∧ check_app_line_status "started" "web:0/1" = "stopped"
    ∧ check_app_line_status "started" "web:x/1" = "unknown" := by
  refine ⟨?_, ?_, ?_⟩
  · exact (check_all_apps_status_mapping "web:1/1" 1).2.1 (by decide) (by decide)
  · exact (check_all_apps_status_mapping "web:0/1" 0).2.2.1 (by decide)
  · exact (check_all_apps_status_mapping "web:x/1" 0).2.2.2.1 (by decide) (by decide)

/-- C3: a failed command whose combined output carries an
authentication-failure signature triggers, when re-login and the
single-app restart succeed, exactly the step sequence reset login state,
pause, re-login, restart the app under test, re-issue the original
command; the command is never re-issued more than once; the outcome is
never an assertion failure, is passed exactly when the re-issued command
succeeds, and is a skip whenever the retry still fails or any recovery
step fails. -/
theorem should_succeed_auth_recovery (result : CommandResult)
    (app_name : Option String) (env : RecoveryEnv)
    (hfail : result.failed = true)
    (hauth : (is_ssh_auth_error (result.stderr ++ " " ++ result.stdout)).1 = true) :
    ((should_succeed result app_name env).2.filter RecoveryStep.isRerun).length ≤ 1
    ∧ (should_succeed result app_name env).1 ≠ AssertOutcome.assertion_error
    ∧ (∀ app, app_name = some app → env.login_success = true → env.restart_success = true →
        (should_succeed result app_name env).2 =
          [RecoveryStep.reset_login_state, RecoveryStep.sleep_pause, RecoveryStep.relogin,
           RecoveryStep.restart_app app, RecoveryStep.rerun result.command]
        ∧ (env.retry_result.failed = true →
            (should_succeed result app_name env).1 =
              AssertOutcome.skipped (is_ssh_auth_error (result.stderr ++ " " ++ result.stdout)).2)
        ∧ (env.retry_result.failed = false →
            (should_succeed result app_name env).1 = AssertOutcome.passed))
    ∧ ((env.login_success = false ∨ app_name = none ∨ env.restart_success = false) →
        ∃ d, (should_succeed result app_name env).1 = AssertOutcome.skipped d
          ∧ ((should_succeed result app_name env).2.filter RecoveryStep.isRerun).length = 0) := by
  cases hl : env.login_success <;> cases app_name <;> cases hr : env.restart_success <;>
    cases hrr : env.retry_result.failed <;>
    simp [should_succeed, hfail, hauth, hl, hr, hrr, RecoveryStep.isRerun]

/-- C3 witness: spec scenario D at a concrete failed command whose output
contains the one-time-auth-code signature, with recovery succeeding and
the retried command still failing. -/
theorem should_succeed_auth_recovery_witness :
    (should_succeed ⟨1, "out", "Error getting one time auth code", "cf ssh app"⟩
        (some "sapmachine21") ⟨true, true, ⟨1, "", "still broken", "cf ssh app"⟩⟩).2 =
      [RecoveryStep.reset_login_state, RecoveryStep.sleep_pause, RecoveryStep.relogin,
       RecoveryStep.restart_app "sapmachine21", RecoveryStep.rerun "cf ssh app"]
    ∧ (should_succeed ⟨1, "out", "Error getting one time auth code", "cf ssh app"⟩
        (some "sapmachine21") ⟨true, true, ⟨1, "", "still broken", "cf ssh app"⟩⟩).1 =
      AssertOutcome.skipped (some "Error getting one time auth code") := by
  have h := (should_succeed_auth_recovery
    ⟨1, "out", "Error getting one time auth code", "cf ssh app"⟩
    (some "sapmachine21") ⟨true, true, ⟨1, "", "still broken", "cf ssh app"⟩⟩
    (by decide) (by decide)).2.2.1 "sapmachine21" rfl rfl rfl
  refine ⟨h.1, ?_⟩
  have h2 := h.2.1 (by decide)
  rw [h2]
  decide

/-- C9: should_succeed on a command that returned code zero performs no
recovery action at all — no step trace, outcome passed — even when the
output carries an authentication-failure signature. -/
theorem should_succeed_no_recovery_on_success (result : CommandResult)
    (app_name : Option String) (env : RecoveryEnv)
    (h : result.failed = false) :
    should_succeed result app_name env = (AssertOutcome.passed, []) := by
  simp [should_succeed, h]

/-- C9 witness: a successful command whose output contains an
authentication-failure signature still triggers nothing. -/
theorem should_succeed_no_recovery_on_success_witness :
    (is_ssh_auth_error ("Authentication failed" ++ " " ++ "ok")).1 = true
    ∧ should_succeed ⟨0, "ok", "Authentication failed", "cf ssh app"⟩ (some "sapmachine21")
        ⟨true, true, ⟨1, "", "", "c"⟩⟩ = (AssertOutcome.passed, []) :=
  ⟨by decide, should_succeed_no_recovery_on_success
    ⟨0, "ok", "Authentication failed", "cf ssh app"⟩ (some "sapmachine21")
    ⟨true, true, ⟨1, "", "", "c"⟩⟩ (by decide)⟩

/-- C4: after a first login call that succeeded and persisted a state
carrying the current fingerprint and its own timestamp, a second call
under the same configuration within 30 minutes succeeds while issuing no
command at all — neither the target probe nor the authentication
command — so the authentication command runs at most once across the two
calls. -/
theorem login_twice_single_auth (cfg : LoginConfig) (state0 : LoginState)
    (t1 t2 : Int) (env1 env2 : LoginEnv)
    (h1 : (login cfg state0 t1 env1).ok = true)
    (hpersist : (login cfg state0 t1 env1).state = ⟨true, some cfg, some t1⟩)
    (hle : 0 ≤ t2 - t1) (hlt : t2 - t1 < 1800) :
    login cfg (login cfg state0 t1 env1).state t2 env2 =
      { ok := true, state := (login cfg state0 t1 env1).state,
        probe_issued := false, auth_issued := false }
    ∧ (login cfg state0 t1 env1).auth_issued.toNat
        + (login cfg (login cfg state0 t1 env1).state t2 env2).auth_issued.toNat ≤ 1 := by
  have hc : login_cached cfg ⟨true, some cfg, some t1⟩ t2 = true := by
    simp [login_cached, hlt]
  have hmain : login cfg (login cfg state0 t1 env1).state t2 env2 =
      { ok := true, state := (login cfg state0 t1 env1).state,
        probe_issued := false, auth_issued := false } := by
    rw [hpersist]
    simp [login, hc]
  refine ⟨hmain, ?_⟩
  rw [hmain]
  cases hb : (login cfg state0 t1 env1).auth_issued <;> simp

/-- C4 witness: spec scenario C shape — a full first login at time 1000,
then a second call five hundred seconds later that issues nothing. -/
theorem login_twice_single_auth_witness :
    login ⟨"u", "p", "a", "o", "s"⟩
        (login ⟨"u", "p", "a", "o", "s"⟩ ⟨false, none, some 0⟩ 1000 ⟨false, true⟩).state
        1500 ⟨false, false⟩ =
      { ok := true,
        state := (login ⟨"u", "p", "a", "o", "s"⟩ ⟨false, none, some 0⟩ 1000 ⟨false, true⟩).state,
        probe_issued := false, auth_issued := false }
    ∧ (login ⟨"u", "p", "a", "o", "s"⟩ ⟨false, none, some 0⟩ 1000 ⟨false, true⟩).auth_issued.toNat
        + (login ⟨"u", "p", "a", "o", "s"⟩
            (login ⟨"u", "p", "a", "o", "s"⟩ ⟨false, none, some 0⟩ 1000 ⟨false, true⟩).state
            1500 ⟨false, false⟩).auth_issued.toNat ≤ 1 :=
  login_twice_single_auth ⟨"u", "p", "a", "o", "s"⟩ ⟨false, none, some 0⟩ 1000 1500
    ⟨false, true⟩ ⟨false, false⟩ (by decide) (by decide) (by decide) (by decide)

/-- C5 counterexample: with a persisted state whose fingerprint differs
from the current config and whose timestamp is well inside the TTL, a
login whose live target probe already matches returns success without
ever issuing the authentication command — the claim's "always issues the
real authentication command" fails here. -/
theorem login_fingerprint_counterexample :
    (some (⟨"user1", "p", "api", "org", "space"⟩ : LoginConfig) ≠
        some (⟨"user2", "p", "api", "org", "space"⟩ : LoginConfig))
    ∧ ((300 : Int) - 0 < 1800)
    ∧ login ⟨"user2", "p", "api", "org", "space"⟩
        ⟨true, some ⟨"user1", "p", "api", "org", "space"⟩, some 0⟩ 300 ⟨true, true⟩ =
      { ok := true,
        state := ⟨true, some ⟨"user2", "p", "api", "org", "space"⟩, some 300⟩,
        probe_issued := true, auth_issued := false } := by decide

/-- C5 (amended): a changed persisted fingerprint always defeats the
cached shortcut — the live target probe is issued regardless of the TTL —
and the real authentication command is issued whenever the live target
does not already match the desired one. -/
theorem login_changed_fingerprint_reauth (cfg : LoginConfig) (state : LoginState)
    (now : Int) (env : LoginEnv)
    (h : state.login_config ≠ some cfg) :
    (login cfg state now env).probe_issued = true
    ∧ (env.target_matches = false → (login cfg state now env).auth_issued = true) := by
  have hc : login_cached cfg state now = false := by
    simp [login_cached, h]
  cases ht : env.target_matches <;> cases hlc : env.login_cmd_succeeds <;>
    simp [login, hc, ht, hlc]

/-- C5 witness: changed fingerprint, live target mismatching — the probe
and the authentication command both run. -/
theorem login_changed_fingerprint_reauth_witness :
    (login ⟨"user2", "p", "api", "org", "space"⟩
        ⟨true, some ⟨"user1", "p", "api", "org", "space"⟩, some 0⟩ 300
        ⟨false, true⟩).probe_issued = true
    ∧ (login ⟨"user2", "p", "api", "org", "space"⟩
        ⟨true, some ⟨"user1", "p", "api", "org", "space"⟩, some 0⟩ 300
        ⟨false, true⟩).auth_issued = true := by
  have h := login_changed_fingerprint_reauth ⟨"user2", "p", "api", "org", "space"⟩
    ⟨true, some ⟨"user1", "p", "api", "org", "space"⟩, some 0⟩ 300 ⟨false, true⟩ (by decide)
  exact ⟨h.1, h.2 rfl⟩

/-- The batch's lifecycle operations never write the persisted queue. -/
lemma exec_events_no_save (l : List (String × LifecycleAction)) :
    (l.map (fun p => DeferredEvent.exec_op p.1 p.2)).filter DeferredEvent.isSave = [] := by
  induction l with
  | nil => rfl
  | cons x rest ih => simp [DeferredEvent.isSave, ih]

/-- Lifecycle operations leave the persisted queue unchanged. -/
lemma final_queue_exec (initial : List RestartEntry) (l : List (String × LifecycleAction)) :
    final_persisted_queue initial (l.map (fun p => DeferredEvent.exec_op p.1 p.2)) = initial := by
  induction l generalizing initial with
  | nil => rfl
  | cons x rest ih =>
    simp only [List.map_cons, final_persisted_queue, List.foldl_cons]
    exact ih initial

/-- Every app the mode dispatch acts on is a configured app. -/
lemma mem_dispatch_app (mode : String) (statuses : List (String × String))
    (apps : List String) (a : String) (act : LifecycleAction)
    (h : (a, act) ∈ deferred_dispatch_actions mode statuses apps) : a ∈ apps := by
  unfold deferred_dispatch_actions at h
  split_ifs at h
  all_goals first
    | exact ((mem_restart_actions statuses apps a act).mp h).1
    | · simp [restart_apps_actions, List.mem_map] at h
        obtain ⟨x, hx, hxa, hact⟩ := h
        rwa [hxa] at hx

/-- C6 counterexample: with configured apps app-a and app-b both running
and a deferred queue naming only app-a, the batch executed by
process_deferred_restarts in smart mode restarts app-b as well, an app
the collected deferred set does not contain — the claim's "exactly the
collected set" fails. -/
theorem process_deferred_scope_counterexample :
    DeferredEvent.exec_op "app-b" LifecycleAction.restart ∈
      process_deferred_restarts "smart" [⟨"app-a", "ClassA", "r", 0⟩]
        [("app-a", "running"), ("app-b", "running")] ["app-a", "app-b"]
    ∧ "app-b" ∉ collected_deferred_apps [⟨"app-a", "ClassA", "r", 0⟩] := by decide

/-- C6 (amended): with a non-empty queue, the batch that
process_deferred_restarts executes is the restart mode's policy applied
to all configured apps — the same batch whichever entries the queue
held — and it touches only configured apps; the collected deferred set
influences nothing but whether a batch runs at all. -/
theorem process_deferred_batch_scope (mode : String) (entries entries' : List RestartEntry)
    (statuses : List (String × String)) (apps : List String)
    (h : entries ≠ []) (h' : entries' ≠ []) :
    process_deferred_restarts mode entries statuses apps =
      DeferredEvent.save_queue [] ::
        (deferred_dispatch_actions mode statuses apps).map
          (fun p => DeferredEvent.exec_op p.1 p.2)
    ∧ process_deferred_restarts mode entries' statuses apps =
        process_deferred_restarts mode entries statuses apps
    ∧ (∀ a act,
        DeferredEvent.exec_op a act ∈ process_deferred_restarts mode entries statuses apps →
          a ∈ apps) := by
  have he : entries.isEmpty = false := by simp [List.isEmpty_iff, h]
  have he' : entries'.isEmpty = false := by simp [List.isEmpty_iff, h']
  have hmain : process_deferred_restarts mode entries statuses apps =
      DeferredEvent.save_queue [] ::
        (deferred_dispatch_actions mode statuses apps).map
          (fun p => DeferredEvent.exec_op p.1 p.2) := by
    simp [process_deferred_restarts, he]
  refine ⟨hmain, by simp [process_deferred_restarts, he, he'], ?_⟩
  intro a act hmem
  rw [hmain] at hmem
  simp only [List.mem_cons] at hmem
  rcases hmem with hhd | htl
  · exact absurd hhd (by simp)
  · simp only [List.mem_map] at htl
    obtain ⟨p, hp, hpe⟩ := htl
    have hpa : p = (a, act) := by
      cases p with
      | mk x y =>
        simp only [DeferredEvent.exec_op.injEq] at hpe
        obtain ⟨rfl, rfl⟩ := hpe
        rfl
    rw [hpa] at hp
    exact mem_dispatch_app mode statuses apps a act hp

/-- C6 witness: the amended statement at a concrete queue of two
different entry lists over one configured app. -/
theorem process_deferred_batch_scope_witness :
    process_deferred_restarts "smart" [⟨"app-x", "ClassB", "r", 1⟩]
        [("app-a", "running")] ["app-a"] =
      DeferredEvent.save_queue [] ::
        (deferred_dispatch_actions "smart" [("app-a", "running")] ["app-a"]).map
          (fun p => DeferredEvent.exec_op p.1 p.2) := by
  exact (process_deferred_batch_scope "smart" [⟨"app-x", "ClassB", "r", 1⟩]
    [⟨"app-y", "ClassC", "r", 2⟩] [("app-a", "running")] ["app-a"]
    (by decide) (by decide)).1

/-- C7: with a non-empty queue, the very first event of
process_deferred_restarts is the write of the empty queue — it precedes
every lifecycle operation, it is the only queue write of the run, and the
persisted queue ends empty no matter how the batch's operations turn
out (their results produce no further queue write). -/
theorem process_deferred_clears_queue_first (mode : String) (entries : List RestartEntry)
    (statuses : List (String × String)) (apps : List String)
    (h : entries ≠ []) :
    (process_deferred_restarts mode entries statuses apps).head? =
      some (DeferredEvent.save_queue [])
    ∧ (process_deferred_restarts mode entries statuses apps).filter DeferredEvent.isSave =
        [DeferredEvent.save_queue []]
    ∧ final_persisted_queue entries (process_deferred_restarts mode entries statuses apps) = [] := by
  have he : entries.isEmpty = false := by simp [List.isEmpty_iff, h]
  refine ⟨?_, ?_, ?_⟩
  · simp [process_deferred_restarts, he]
  · simp only [process_deferred_restarts, he, Bool.false_eq_true, if_false,
      List.filter_cons]
    simp [DeferredEvent.isSave, exec_events_no_save]
  · simp only [process_deferred_restarts, he, Bool.false_eq_true, if_false,
      final_persisted_queue, List.foldl_cons]
    exact final_queue_exec [] _

/-- C7 witness: clearing precedes the batch at a concrete queue whose
batch operation fails (the app restarts to a failing command — the queue
still ends empty). -/
theorem process_deferred_clears_queue_first_witness :
    (process_deferred_restarts "always" [⟨"app-a", "ClassA", "no_restart", 7⟩]
        [] ["app-a"]).head? = some (DeferredEvent.save_queue [])
    ∧ final_persisted_queue [⟨"app-a", "ClassA", "no_restart", 7⟩]
        (process_deferred_restarts "always" [⟨"app-a", "ClassA", "no_restart", 7⟩]
          [] ["app-a"]) = [] := by
  have h := process_deferred_clears_queue_first "always"
    [⟨"app-a", "ClassA", "no_restart", 7⟩] [] ["app-a"] (by decide)
  exact ⟨h.1, h.2.2⟩

/-- An absent (app, class) pair has count zero. -/
lemma find_none_count_zero (entries : List RestartEntry) (a c : String)
    (h : entries.find? (fun e => e.app == a && e.test_class == c) = none) :
    entryCount entries a c = 0 := by
  rw [List.find?_eq_none] at h
  simp only [entryCount, List.length_eq_zero]
  rw [List.filter_eq_nil]
  exact fun e he => by simpa using h e he

/-- A found (app, class) pair has count at least one. -/
lemma find_some_count_pos (entries : List RestartEntry) (a c : String) (e : RestartEntry)
    (h : entries.find? (fun x => x.app == a && x.test_class == c) = some e) :
    1 ≤ entryCount entries a c := by
  have hmem : e ∈ entries := List.mem_of_find?_eq_some h
  have hpred := List.find?_some h
  have hmf : e ∈ entries.filter (fun x => x.app == a && x.test_class == c) :=
    List.mem_filter.mpr ⟨hmem, hpred⟩
  have hlen := List.length_pos.mpr (List.ne_nil_of_mem hmf)
  simpa [entryCount] using hlen

/-- Adding a pair whose count is at most one leaves its count exactly
one. -/
lemma count_add_same (entries : List RestartEntry) (a c r : String) (t : Int)
    (h : entryCount entries a c ≤ 1) :
    entryCount (add_deferred_restart_app entries a c r t) a c = 1 := by
  unfold add_deferred_restart_app
  cases hf : entries.find? (fun e => e.app == a && e.test_class == c) with
  | none =>
    have h0 := find_none_count_zero entries a c hf
    unfold entryCount at h0 ⊢
    simp only [List.filter_append, List.length_append, h0]
    simp
  | some e =>
    have h1 := find_some_count_pos entries a c e hf
    show entryCount entries a c = 1
    omega

/-- Adding one pair never changes another pair's count. -/
lemma count_add_other (entries : List RestartEntry) (a c r : String) (t : Int)
    (x y : String) (h : ¬(a = x ∧ c = y)) :
    entryCount (add_deferred_restart_app entries a c r t) x y = entryCount entries x y := by
  unfold add_deferred_restart_app
  cases hf : entries.find? (fun e => e.app == a && e.test_class == c) with
  | some e => rfl
  | none =>
    simp only [entryCount, List.filter_append]
    have : (((⟨a, c, r, t⟩ : RestartEntry).app == x &&
        (⟨a, c, r, t⟩ : RestartEntry).test_class == y)) = false := by
      simp only [beq_iff_eq]
      by_cases hx : a = x
      · by_cases hy : c = y
        · exact absurd ⟨hx, hy⟩ h
        · simp [hx, hy]
      · simp [hx]
    simp [List.filter, this]

/-- One add keeps every pair's count at most one. -/
lemma dedup_add (entries : List RestartEntry) (a c r : String) (t : Int)
    (h : ∀ x y, entryCount entries x y ≤ 1) :
    ∀ x y, entryCount (add_deferred_restart_app entries a c r t) x y ≤ 1 := by
  intro x y
  by_cases hxy : a = x ∧ c = y
  · obtain ⟨rfl, rfl⟩ := hxy
    rw [count_add_same entries a c r t (h a c)]
  · rw [count_add_other entries a c r t x y hxy]
    exact h x y

/-- A whole sequence of adds keeps every pair's count at most one. -/
lemma fold_dedup (calls : List (String × String × String × Int)) :
    ∀ init : List RestartEntry, (∀ x y, entryCount init x y ≤ 1) →
      ∀ x y, entryCount (calls.foldl
        (fun es call => add_deferred_restart_app es call.1 call.2.1 call.2.2.1 call.2.2.2)
        init) x y ≤ 1 := by
  induction calls with
  | nil => intro init h x y; exact h x y
  | cons call rest ih =>
    intro init h x y
    exact ih _ (dedup_add init call.1 call.2.1 call.2.2.1 call.2.2.2 h) x y

/-- C8: any sequence of add_deferred_restart_app calls starting from the
empty queue leaves at most one entry per (app, test class) pair; two
adds of the same pair leave exactly one entry for it; and adds of the
same app under two different test classes leave one entry for each. -/
theorem add_deferred_restart_dedup :
    (∀ calls : List (String × String × String × Int), ∀ x y,
        entryCount (calls.foldl
          (fun es call => add_deferred_restart_app es call.1 call.2.1 call.2.2.1 call.2.2.2)
          []) x y ≤ 1)
    ∧ (∀ (entries : List RestartEntry) (a c r r' : String) (t t' : Int),
        entryCount entries a c ≤ 1 →
        entryCount (add_deferred_restart_app
          (add_deferred_restart_app entries a c r t) a c r' t') a c = 1)
    ∧ (∀ (entries : List RestartEntry) (a c1 c2 r r' : String) (t t' : Int), c1 ≠ c2 →
        entryCount entries a c1 ≤ 1 → entryCount entries a c2 ≤ 1 →
        entryCount (add_deferred_restart_app
          (add_deferred_restart_app entries a c1 r t) a c2 r' t') a c1 = 1
        ∧ entryCount (add_deferred_restart_app
          (add_deferred_restart_app entries a c1 r t) a c2 r' t') a c2 = 1) := by
  refine ⟨?_, ?_, ?_⟩
  · intro calls x y
    exact fold_dedup calls [] (fun x y => by simp [entryCount]) x y
  · intro entries a c r r' t t' h
    have h1 := count_add_same entries a c r t h
    exact count_add_same _ a c r' t' (by omega)
  · intro entries a c1 c2 r r' t t' hne h1 h2
    constructor
    · rw [count_add_other _ a c2 r' t' a c1 (fun hc => hne hc.2.symm)]
      exact count_add_same entries a c1 r t h1
    · have hfst : entryCount (add_deferred_restart_app entries a c1 r t) a c2 =
          entryCount entries a c2 :=
        count_add_other entries a c1 r t a c2 (fun hc => hne hc.2)
      have := count_add_same (add_deferred_restart_app entries a c1 r t) a c2 r' t'
        (by rw [hfst]; omega)
      exact this

/-- C8 witness: spec scenario E — two adds of app1/ClassA leave exactly
one entry for the pair. -/
theorem add_deferred_restart_dedup_witness :
    entryCount (add_deferred_restart_app
      (add_deferred_restart_app [] "app1" "ClassA" "no_restart=True" 0)
      "app1" "ClassA" "no_restart=True" 1) "app1" "ClassA" = 1 :=
  add_deferred_restart_dedup.2.1 [] "app1" "ClassA" "no_restart=True" "no_restart=True" 0 1
    (by decide)

/-- When every earlier element is a pausing sleep or a succeeding
command, run_command's loop reaches the first failing command, returns
its result, and executes nothing after it. -/
lemma run_go_first_failure (exec : String → CommandResult)
    (sleepRaise : String → Option String) (c : String) (post : List String)
    (hc1 : pyStartsWith c "sleep " = false) (hc2 : (exec c).failed = true) :
    ∀ pre : List String,
      (∀ x ∈ pre, (pyStartsWith x "sleep " = true → wellFormedSleep sleepRaise x = true)
        ∧ (pyStartsWith x "sleep " = false → (exec x).failed = false)) →
      ∀ results, run_command_go exec sleepRaise (pre ++ c :: post) results =
        (RunResult.returned (exec c), executedOf pre ++ [c]) := by
  intro pre
  induction pre with
  | nil =>
    intro _ results
    simp [run_command_go, hc1, hc2, executedOf]
  | cons x rest ih =>
    intro hpre results
    have hx := hpre x (List.mem_cons_self x rest)
    have hrest := fun z hz => hpre z (List.mem_cons_of_mem x hz)
    by_cases hs : pyStartsWith x "sleep " = true
    · have hwf := hx.1 hs
      unfold wellFormedSleep at hwf
      simp only [List.cons_append, run_command_go, hs, if_true]
      cases hd : (pySplitWs x)[1]? with
      | none =>
        simp [hd] at hwf
      | some dur =>
        simp only [hd, Bool.and_eq_true] at hwf
        simp only [hd, hwf.1, if_true, List.append_eq]
        cases hsr : sleepRaise dur with
        | some msg => simp [hsr] at hwf
        | none =>
          simp only [hsr]
          rw [ih hrest results]
          simp [executedOf, hs]
    · have hsf : pyStartsWith x "sleep " = false := by simpa using hs
      have hok := hx.2 hsf
      simp only [List.cons_append, run_command_go, hsf, Bool.false_eq_true, if_false, hok,
        List.append_eq]
      rw [ih hrest (results ++ [exec x])]
      simp [executedOf, hsf]

/-- When every element is a pausing sleep or a succeeding command,
run_command's loop executes exactly the non-sleep commands and yields the
accumulated results' last element — or the IndexError of `results[-1]`
when nothing accumulated. -/
lemma run_go_all_success (exec : String → CommandResult)
    (sleepRaise : String → Option String) (cmds : List String) :
    (∀ x ∈ cmds, (pyStartsWith x "sleep " = true → wellFormedSleep sleepRaise x = true)
      ∧ (pyStartsWith x "sleep " = false → (exec x).failed = false)) →
    ∀ results, run_command_go exec sleepRaise cmds results =
      (((results ++ (executedOf cmds).map exec).getLast?).elim
        (RunResult.raised "IndexError") RunResult.returned,
       executedOf cmds) := by
  induction cmds with
  | nil =>
    intro _ results
    simp only [run_command_go, executedOf, List.filter_nil, List.map_nil, List.append_nil]
    cases results.getLast? <;> simp
  | cons x rest ih =>
    intro hall results
    have hx := hall x (List.mem_cons_self x rest)
    have hrest := fun z hz => hall z (List.mem_cons_of_mem x hz)
    by_cases hs : pyStartsWith x "sleep " = true
    · have hwf := hx.1 hs
      unfold wellFormedSleep at hwf
      simp only [run_command_go, hs, if_true]
      cases hd : (pySplitWs x)[1]? with
      | none =>
        simp [hd] at hwf
      | some dur =>
        simp only [hd, Bool.and_eq_true] at hwf
        simp only [hd, hwf.1, if_true, List.append_eq]
        cases hsr : sleepRaise dur with
        | some msg => simp [hsr] at hwf
        | none =>
          simp only [hsr]
          rw [ih hrest results]
          simp [executedOf, hs]
    · have hsf : pyStartsWith x "sleep " = false := by simpa using hs
      have hok := hx.2 hsf
      simp only [run_command_go, hsf, Bool.false_eq_true, if_false, hok, List.append_eq]
      rw [ih hrest (results ++ [exec x])]
      simp [executedOf, hsf, List.append_assoc]

/-- A sleep element whose duration parses as a float that `time.sleep`
rejects (negative or NaN: ValueError; infinite: OverflowError) aborts the
sequence at that element: everything executed before it stays executed,
nothing after it runs, and the raise propagates. -/
lemma run_go_sleep_raise (exec : String → CommandResult)
    (sleepRaise : String → Option String) (x : String) (post : List String)
    (hs : pyStartsWith x "sleep " = true) (d msg : String)
    (hd : (pySplitWs x)[1]? = some d) (hv : pyFloatValid d = true)
    (hr : sleepRaise d = some msg) :
    ∀ pre : List String,
      (∀ z ∈ pre, (pyStartsWith z "sleep " = true → wellFormedSleep sleepRaise z = true)
        ∧ (pyStartsWith z "sleep " = false → (exec z).failed = false)) →
      ∀ results, run_command_go exec sleepRaise (pre ++ x :: post) results =
        (RunResult.raised msg, executedOf pre) := by
  intro pre
  induction pre with
  | nil =>
    intro _ results
    simp only [List.nil_append, run_command_go, hs, if_true, hd, hv, hr]
    simp [executedOf]
  | cons y rest ih =>
    intro hpre results
    have hy := hpre y (List.mem_cons_self y rest)
    have hrest := fun z hz => hpre z (List.mem_cons_of_mem y hz)
    by_cases hys : pyStartsWith y "sleep " = true
    · have hwf := hy.1 hys
      unfold wellFormedSleep at hwf
      simp only [List.cons_append, run_command_go, hys, if_true]
      cases hyd : (pySplitWs y)[1]? with
      | none =>
        simp [hyd] at hwf
      | some dur =>
        simp only [hyd, Bool.and_eq_true] at hwf
        simp only [hyd, hwf.1, if_true, List.append_eq]
        cases hysr : sleepRaise dur with
        | some m => simp [hysr] at hwf
        | none =>
          simp only [hysr]
          rw [ih hrest results]
          simp [executedOf, hys]
    · have hysf : pyStartsWith y "sleep " = false := by simpa using hys
      have hok := hy.2 hysf
      simp only [List.cons_append, run_command_go, hysf, Bool.false_eq_true, if_false, hok,
        List.append_eq]
      rw [ih hrest (results ++ [exec y])]
      simp [executedOf, hysf]

/-- C10 counterexample: a list element starting with "sleep " whose
duration is not a float literal makes run_command raise immediately
instead of pausing — the following command is never executed and no
result is returned, against the claim's "any element starting with
'sleep ' is an in-process pause". -/
theorem run_command_sleep_counterexample :
    pyStartsWith "sleep abc" "sleep " = true
    ∧ run_command (fun c => ⟨0, "", "", c⟩) (fun _ => none) ["sleep abc", "true"] =
        (RunResult.raised "ValueError", []) := by decide

/-- C10 (amended): commands run in order; an element starting with
"sleep " is an in-process pause producing no result only when its
duration token parses as a float that `time.sleep` then accepts — a
missing or malformed duration raises IndexError/ValueError, and a parsed
duration `time.sleep` rejects (negative or NaN: ValueError; infinite:
OverflowError) aborts the sequence just the same, later elements never
executing; the loop stops at the first failing command and returns its
result, never executing later elements; and when every executed command
succeeds it returns the last executed command's result — raising
IndexError when no command at all was executed. -/
theorem run_command_list_behavior (exec : String → CommandResult)
    (sleepRaise : String → Option String) :
    (∀ pre c post,
        (∀ x ∈ pre, (pyStartsWith x "sleep " = true → wellFormedSleep sleepRaise x = true)
          ∧ (pyStartsWith x "sleep " = false → (exec x).failed = false)) →
        pyStartsWith c "sleep " = false → (exec c).failed = true →
        run_command exec sleepRaise (pre ++ c :: post) =
          (RunResult.returned (exec c), executedOf pre ++ [c]))
    ∧ (∀ cmds,
        (∀ x ∈ cmds, (pyStartsWith x "sleep " = true → wellFormedSleep sleepRaise x = true)
          ∧ (pyStartsWith x "sleep " = false → (exec x).failed = false)) →
        run_command exec sleepRaise cmds =
          ((((executedOf cmds).map exec).getLast?).elim
            (RunResult.raised "IndexError") RunResult.returned,
           executedOf cmds))
    ∧ (∀ pre x post d msg,
        (∀ z ∈ pre, (pyStartsWith z "sleep " = true → wellFormedSleep sleepRaise z = true)
          ∧ (pyStartsWith z "sleep " = false → (exec z).failed = false)) →
        pyStartsWith x "sleep " = true → (pySplitWs x)[1]? = some d →
        pyFloatValid d = true → sleepRaise d = some msg →
        run_command exec sleepRaise (pre ++ x :: post) =
          (RunResult.raised msg, executedOf pre)) := by
  refine ⟨?_, ?_, ?_⟩
  · intro pre c post hpre hc1 hc2
    exact run_go_first_failure exec sleepRaise c post hc1 hc2 pre hpre []
  · intro cmds hall
    have h := run_go_all_success exec sleepRaise cmds hall []
    simpa [run_command] using h
  · intro pre x post d msg hpre hx hd hv hr
    exact run_go_sleep_raise exec sleepRaise x post hx d msg hd hv hr pre hpre []

/-- C10 witness: with an environment that accepts 0.5 and 1 as sleep
durations but rejects -1 the way `time.sleep` does, a failure in the
middle stops the sequence after the sleep pause, an all-success list
returns the last result with sleeps producing none, and a negative sleep
duration aborts after the commands before it. -/
theorem run_command_list_behavior_witness :
    run_command (fun s => if s = "b" then ⟨1, "", "err", s⟩ else ⟨0, "out", "", s⟩)
        (fun d => if d = "-1" then some "ValueError" else none)
        (["sleep 0.5", "a"] ++ "b" :: ["d"]) =
      (RunResult.returned ⟨1, "", "err", "b"⟩, ["a", "b"])
    ∧ run_command (fun s => if s = "b" then ⟨1, "", "err", s⟩ else ⟨0, "out", "", s⟩)
        (fun d => if d = "-1" then some "ValueError" else none)
        ["a", "sleep 1", "c"] =
      (RunResult.returned ⟨0, "out", "", "c"⟩, ["a", "c"])
    ∧ run_command (fun s => if s = "b" then ⟨1, "", "err", s⟩ else ⟨0, "out", "", s⟩)
        (fun d => if d = "-1" then some "ValueError" else none)
        (["a"] ++ "sleep -1" :: ["c"]) =
      (RunResult.raised "ValueError", ["a"]) := by
  refine ⟨?_, ?_, ?_⟩
  · have h := (run_command_list_behavior
      (fun s => if s = "b" then ⟨1, "", "err", s⟩ else ⟨0, "out", "", s⟩)
      (fun d => if d = "-1" then some "ValueError" else none)).1
      ["sleep 0.5", "a"] "b" ["d"] (by decide) (by decide) (by decide)
    exact h.trans (by decide)
  · have h := (run_command_list_behavior
      (fun s => if s = "b" then ⟨1, "", "err", s⟩ else ⟨0, "out", "", s⟩)
      (fun d => if d = "-1" then some "ValueError" else none)).2.1
      ["a", "sleep 1", "c"] (by decide)
    exact h.trans (by decide)
  · have h := (run_command_list_behavior
      (fun s => if s = "b" then ⟨1, "", "err", s⟩ else ⟨0, "out", "", s⟩)
      (fun d => if d = "-1" then some "ValueError" else none)).2.2
      ["a"] "sleep -1" ["c"] "-1" "ValueError"
      (by decide) (by decide) (by decide) (by decide) (by decide)
    exact h.trans (by decide)
